import Mathlib

/-!
Shallow embedding of src/dagger/main.go from the dynamic-context-mcp-system
repository.

The Go program connects to the dagger container runtime, lazily constructs
four service containers (micro agent, MCP server, knowledge graph, session
memory) and then runs a smoke test for each one in a fixed textual order,
returning the first error it meets.  main first runs testDagger and then
runPipeline, exiting with code 1 as soon as either returns an error and
with code 0 otherwise.

The external world is abstracted into an Env record: whether dagger.Connect
succeeds, the outcome of the preliminary alpine echo exec inside testDagger,
and, for each component, the outcome of forcing its build steps together
with the outcome of its test exec.  Dagger builds are lazy: the build
functions only assemble a pipeline description and a failing build step
surfaces as the error of the Stdout call made by the test phase; stdoutOf
captures exactly that.
-/

deriving instance DecidableEq for Except

/-- The four components hardwired in runPipeline, in the order they are
built (src/dagger/main.go lines 56 to 59) and tested (lines 62 to 76). -/
inductive Component where
  | microAgent
  | mcpServer
  | knowledgeGraph
  | sessionMemory
deriving DecidableEq

/-- What the outside world holds for one component: the outcome of forcing
its build steps, and the outcome of running its test exec on the built
container (the container exec result the test phase observes when the build
itself went through). -/
structure ComponentWorld where
  build : Except String Unit
  exec : Except String String
deriving DecidableEq

/-- The external environment one run of the program observes: whether
dagger.Connect succeeds, the outcome of the alpine echo exec in testDagger,
and the world of each of the four components. -/
structure Env where
  connectOk : Bool
  daggerEcho : Except String String
  microAgent : ComponentWorld
  mcpServer : ComponentWorld
  knowledgeGraph : ComponentWorld
  sessionMemory : ComponentWorld
deriving DecidableEq

/-- Forcing a lazily built container with Stdout: a failed build step
surfaces here as the error of the call, otherwise the test exec outcome is
returned.  This is the value of the container.WithExec(...).Stdout(ctx)
calls in the test functions. -/
def stdoutOf (w : ComponentWorld) : Except String String :=
  match w.build with
  | .error e => .error e
  | .ok _ => w.exec

/-- Boolean success of an Except valued container call. -/
def resultOk (r : Except String String) : Bool :=
  match r with
  | .ok _ => true
  | .error _ => false

/-- Whether forcing the build of a component and running its test exec
would both succeed. -/
def execOk (w : ComponentWorld) : Bool :=
  resultOk (stdoutOf w)

/-- testDagger (src/dagger/main.go lines 26 to 44): connect to dagger, run
an alpine container echoing two messages, propagate any error. -/
def testDagger (e : Env) : Except String Unit :=
  if e.connectOk then
    match e.daggerEcho with
    | .error err => .error err
    | .ok _ => .ok ()
  else .error "dagger connect error"

/-- testMicroAgent (src/dagger/main.go lines 452 to 464): run the exec on
the built micro agent container, propagate any error, succeed otherwise. -/
def testMicroAgent (e : Env) : Except String Unit :=
  match stdoutOf e.microAgent with
  | .error err => .error err
  | .ok _ => .ok ()

/-- testMCPServer (src/dagger/main.go lines 466 to 479): run the server
under timeout 5; when the call errors the code prints a success message and
falls through, so the function returns nil on every outcome. -/
def testMCPServer (e : Env) : Except String Unit :=
  match stdoutOf e.mcpServer with
  | .error _ => .ok ()
  | .ok _ => .ok ()

/-- testKnowledgeGraph (src/dagger/main.go lines 481 to 493): run the exec
on the built knowledge graph container, propagate any error. -/
def testKnowledgeGraph (e : Env) : Except String Unit :=
  match stdoutOf e.knowledgeGraph with
  | .error err => .error err
  | .ok _ => .ok ()

/-- testSessionMemory (src/dagger/main.go lines 495 to 507): run the exec
on the built session memory container, propagate any error. -/
def testSessionMemory (e : Env) : Except String Unit :=
  match stdoutOf e.sessionMemory with
  | .error err => .error err
  | .ok _ => .ok ()

/-- runPipeline (src/dagger/main.go lines 46 to 80): connect, build the
four containers lazily, then test them one after the other in declaration
order, returning at the first test error with a wrapped message. -/
def runPipeline (e : Env) : Except String Unit :=
  if e.connectOk then
    match testMicroAgent e with
    | .error err => .error ("micro agent test failed: " ++ err)
    | .ok _ =>
      match testMCPServer e with
      | .error err => .error ("MCP server test failed: " ++ err)
      | .ok _ =>
        match testKnowledgeGraph e with
        | .error err => .error ("knowledge graph test failed: " ++ err)
        | .ok _ =>
          match testSessionMemory e with
          | .error err => .error ("session memory test failed: " ++ err)
          | .ok _ => .ok ()
  else .error "dagger connect error"

/-- The trace of per component outcomes runPipeline actually produces: for
each test function it invokes, the component and whether that test function
returned nil.  It follows the control flow of runPipeline exactly: the
sequence stops at the first test that returns an error, because runPipeline
returns there. -/
def testResults (e : Env) : List (Component × Bool) :=
  if e.connectOk then
    match testMicroAgent e with
    | .error _ => [(.microAgent, false)]
    | .ok _ =>
      match testMCPServer e with
      | .error _ => [(.microAgent, true), (.mcpServer, false)]
      | .ok _ =>
        match testKnowledgeGraph e with
        | .error _ => [(.microAgent, true), (.mcpServer, true), (.knowledgeGraph, false)]
        | .ok _ =>
          match testSessionMemory e with
          | .error _ =>
            [(.microAgent, true), (.mcpServer, true), (.knowledgeGraph, true),
             (.sessionMemory, false)]
          | .ok _ =>
            [(.microAgent, true), (.mcpServer, true), (.knowledgeGraph, true),
             (.sessionMemory, true)]
  else []

/-- The order in which the four components are declared, built and tested
in the source. -/
def declarationOrder : List Component :=
  [.microAgent, .mcpServer, .knowledgeGraph, .sessionMemory]

/-- The main function (src/dagger/main.go lines 10 to 24) as its process
exit code: 1 when testDagger or runPipeline errors, 0 otherwise. -/
def mainExit (e : Env) : Nat :=
  match testDagger e with
  | .error _ => 1
  | .ok _ =>
    match runPipeline e with
    | .error _ => 1
    | .ok _ => 0

/-- A component world with a succeeding build and a succeeding exec. -/
def okWorld : ComponentWorld :=
  { build := Except.ok (), exec := Except.ok "out" }

/-- An environment in which everything succeeds. -/
def envAllOk : Env :=
  { connectOk := true, daggerEcho := Except.ok "echo",
    microAgent := okWorld, mcpServer := okWorld,
    knowledgeGraph := okWorld, sessionMemory := okWorld }

/-- Environment for the C1 counterexample: runtime reachable, micro agent
exec fails, everything else fine. -/
def envC1 : Env :=
  { envAllOk with microAgent := { build := Except.ok (), exec := Except.error "boom" } }

/-- C1 counterexample: with the execution environment reachable, a single
component test failure is propagated by runPipeline as a pipeline level
error, contradicting the claim that only environment unavailability
propagates and component failures stay inside a report. -/
theorem runPipeline_propagates_component_failure :
    envC1.connectOk = true ∧
    stdoutOf envC1.microAgent = Except.error "boom" ∧
    runPipeline envC1 = Except.error "micro agent test failed: boom" := by
  decide

/-- C1 amended: runPipeline returns nil exactly when the runtime is
reachable and the micro agent, knowledge graph and session memory execs all
succeed; any of those failures, not only environment unavailability, is
propagated as the pipeline level error (the MCP server outcome is ignored
and there is no per component report). -/
theorem runPipeline_ok_iff (e : Env) :
    runPipeline e = Except.ok () ↔
      (e.connectOk = true ∧ execOk e.microAgent = true ∧
       execOk e.knowledgeGraph = true ∧ execOk e.sessionMemory = true) := by
  unfold runPipeline testMicroAgent testMCPServer testKnowledgeGraph testSessionMemory
  unfold execOk resultOk
  cases hc : e.connectOk <;>
    cases h1 : stdoutOf e.microAgent <;>
      cases h2 : stdoutOf e.mcpServer <;>
        cases h3 : stdoutOf e.knowledgeGraph <;>
          cases h4 : stdoutOf e.sessionMemory <;>
            simp_all

/-- Environment for the C2 counterexample: micro agent and session memory
fine, knowledge graph exec fails. -/
def envC2 : Env :=
  { envAllOk with knowledgeGraph := { build := Except.ok (), exec := Except.error "graph boom" } }

/-- C2 counterexample: with the first two components fine and the third
failing, runPipeline aborts at the third component: the fourth component is
never tested, no result exists for it, and the call returns the error
instead of a full report, contradicting the claim that the pipeline always
completes work on all components with one result per component. -/
theorem runPipeline_aborts_midway :
    runPipeline envC2 = Except.error "knowledge graph test failed: graph boom" ∧
    testResults envC2 =
      [(Component.microAgent, true), (Component.mcpServer, true),
       (Component.knowledgeGraph, false)] ∧
    (testResults envC2).length ≠ 4 := by
  decide

/-- C2 amended: when the runtime is reachable, the micro agent exec
succeeds and the knowledge graph exec fails, runPipeline returns the
knowledge graph error at once: the session memory component is never
tested and the produced results stop at the failing component. -/
theorem runPipeline_stops_at_first_failure (e : Env) (msg : String)
    (hc : e.connectOk = true) (hm : execOk e.microAgent = true)
    (hk : stdoutOf e.knowledgeGraph = Except.error msg) :
    runPipeline e = Except.error ("knowledge graph test failed: " ++ msg) ∧
    testResults e =
      [(Component.microAgent, true), (Component.mcpServer, true),
       (Component.knowledgeGraph, false)] := by
  unfold runPipeline testResults testMicroAgent testMCPServer testKnowledgeGraph
  unfold execOk resultOk at hm
  cases h1 : stdoutOf e.microAgent <;> rw [h1] at hm <;>
    cases h2 : stdoutOf e.mcpServer <;>
      simp_all

/-- C2 witness: the amended statement applied to the concrete environment
envC2. -/
theorem runPipeline_stops_at_first_failure_holds :
    runPipeline envC2 = Except.error ("knowledge graph test failed: " ++ "graph boom") ∧
    testResults envC2 =
      [(Component.microAgent, true), (Component.mcpServer, true),
       (Component.knowledgeGraph, false)] :=
  runPipeline_stops_at_first_failure envC2 "graph boom" rfl rfl rfl

/-- The smoke test exec outcome of each component of an environment. -/
def componentExecOk (e : Env) : Component → Bool
  | .microAgent => execOk e.microAgent
  | .mcpServer => execOk e.mcpServer
  | .knowledgeGraph => execOk e.knowledgeGraph
  | .sessionMemory => execOk e.sessionMemory

/-- Environment for the C3 counterexample: runtime reachable, the MCP
server smoke test exec fails, everything else fine. -/
def envC3 : Env :=
  { envAllOk with
    mcpServer := { build := Except.ok (), exec := Except.error "mcp smoke exec failed" } }

/-- C3 counterexample: the MCP server component has a failing smoke test
exec, yet runPipeline reports overall success, so the overall outcome is
not the logical AND of the per component test outcomes: one component test
fails without making the pipeline fail. -/
theorem and_law_fails_for_mcp :
    componentExecOk envC3 Component.mcpServer = false ∧
    runPipeline envC3 = Except.ok () := by
  decide

/-- C3 amended: with the runtime reachable, the overall pipeline outcome is
the logical AND of the smoke test exec outcomes of the components other
than the MCP server: success exactly when the micro agent, knowledge graph
and session memory execs all succeed; the MCP server exec outcome is
excluded from the conjunction, so its failure never causes overall
failure. -/
theorem runPipeline_and_law_excluding_mcp (e : Env) (hc : e.connectOk = true) :
    runPipeline e = Except.ok () ↔
      ∀ c ∈ declarationOrder.filter (fun c => c ≠ Component.mcpServer),
        componentExecOk e c = true := by
  unfold runPipeline testMicroAgent testMCPServer testKnowledgeGraph testSessionMemory
  cases h1 : stdoutOf e.microAgent <;>
    cases h2 : stdoutOf e.mcpServer <;>
      cases h3 : stdoutOf e.knowledgeGraph <;>
        cases h4 : stdoutOf e.sessionMemory <;>
          simp_all [declarationOrder, componentExecOk, execOk, resultOk]

/-- C3 witness: the amended AND law applied to the concrete all passing
environment. -/
theorem runPipeline_and_law_excluding_mcp_holds :
    runPipeline envAllOk = Except.ok () ↔
      ∀ c ∈ declarationOrder.filter (fun c => c ≠ Component.mcpServer),
        componentExecOk envAllOk c = true :=
  runPipeline_and_law_excluding_mcp envAllOk rfl

/-- Environment for C4: the MCP server container run fails immediately
(the server crashes at startup rather than timing out while serving). -/
def envC4 : Env :=
  { envAllOk with
    mcpServer := { build := Except.ok (), exec := Except.error "server exited immediately" } }

/-- C4: testMCPServer records a pass although the container run failed and
no readiness probe of any kind was issued; any error outcome of the exec,
crash and timeout alike, is turned into a pass, so a timeout alone is
sufficient for a pass, contrary to the claim. -/
theorem testMCPServer_passes_on_crash :
    stdoutOf envC4.mcpServer = Except.error "server exited immediately" ∧
    testMCPServer envC4 = Except.ok () ∧
    runPipeline envC4 = Except.ok () := by
  decide

/-- Environment for the C5 counterexample: the very first component fails,
everything else fine. -/
def envC5 : Env :=
  { envAllOk with microAgent := { build := Except.ok (), exec := Except.error "agent dead" } }

/-- C5 counterexample: when the first component fails, the sequence of per
component results the run produces is the single element list for the micro
agent, not the declaration order of the input components, contradicting the
claim that the result sequence always equals the declaration order. -/
theorem testResults_not_declaration_order :
    (testResults envC5).map Prod.fst = [Component.microAgent] ∧
    (testResults envC5).map Prod.fst ≠ declarationOrder := by
  decide

/-- C5 amended: the components are a fixed hardwired sequence rather than
an arbitrary descriptor input, and the results runPipeline produces always
follow the declaration order, being the prefix of it that was reached
before the first failure; only a fully successful run covers the whole
declaration order. -/
theorem testResults_follow_declaration_order (e : Env) :
    (testResults e).map Prod.fst =
      List.take (testResults e).length declarationOrder ∧
    (runPipeline e = Except.ok () →
      (testResults e).map Prod.fst = declarationOrder) := by
  unfold runPipeline testResults
  cases hc : e.connectOk <;>
    cases h1 : testMicroAgent e <;>
      cases h2 : testMCPServer e <;>
        cases h3 : testKnowledgeGraph e <;>
          cases h4 : testSessionMemory e <;>
            simp_all [declarationOrder]

/-- C5 witness: the amended statement applied to the all passing
environment, where the produced results cover the whole declaration order. -/
theorem testResults_follow_declaration_order_holds :
    (testResults envAllOk).map Prod.fst = declarationOrder :=
  (testResults_follow_declaration_order envAllOk).2 rfl

/-- Environment for the C6 counterexample: the micro agent BUILD fails,
everything else fine. -/
def envC6 : Env :=
  { envAllOk with
    microAgent := { build := Except.error "pip install failed", exec := Except.ok "x" } }

/-- C6 counterexample: a component whose build fails still has its test
phase invoked: the build error surfaces inside testMicroAgent, the failing
component appears in the produced results, and runPipeline propagates the
build error wrapped in the test failure message instead of recording a
failed result in a report, contradicting the claim that the test phase is
never invoked after a build failure. -/
theorem build_failure_reaches_test_phase :
    envC6.microAgent.build = Except.error "pip install failed" ∧
    testMicroAgent envC6 = Except.error "pip install failed" ∧
    testResults envC6 = [(Component.microAgent, false)] ∧
    runPipeline envC6 = Except.error "micro agent test failed: pip install failed" := by
  decide

/-- C6 amended: builds are lazy, so a failed build surfaces as the error of
the test phase Stdout call of its component.  For the micro agent, the
knowledge graph (once the micro agent passed) and the session memory (once
both earlier tested components passed), the test function is invoked,
returns the build error, the component is recorded as failed in the
produced results, and runPipeline aborts with the wrapped build error
instead of recording a failed result in a report.  For the MCP server the
build error is swallowed by its test function: the test returns nil and,
whenever its test is reached, the component is recorded as passed. -/
theorem build_failure_behavior (e : Env) (msg : String) (hc : e.connectOk = true) :
    (e.microAgent.build = Except.error msg →
      testMicroAgent e = Except.error msg ∧
      runPipeline e = Except.error ("micro agent test failed: " ++ msg) ∧
      testResults e = [(Component.microAgent, false)]) ∧
    (e.mcpServer.build = Except.error msg →
      testMCPServer e = Except.ok () ∧
      (execOk e.microAgent = true → (Component.mcpServer, true) ∈ testResults e)) ∧
    (execOk e.microAgent = true → e.knowledgeGraph.build = Except.error msg →
      testKnowledgeGraph e = Except.error msg ∧
      runPipeline e = Except.error ("knowledge graph test failed: " ++ msg) ∧
      testResults e =
        [(Component.microAgent, true), (Component.mcpServer, true),
         (Component.knowledgeGraph, false)]) ∧
    (execOk e.microAgent = true → execOk e.knowledgeGraph = true →
      e.sessionMemory.build = Except.error msg →
      testSessionMemory e = Except.error msg ∧
      runPipeline e = Except.error ("session memory test failed: " ++ msg) ∧
      testResults e =
        [(Component.microAgent, true), (Component.mcpServer, true),
         (Component.knowledgeGraph, true), (Component.sessionMemory, false)]) := by
  refine ⟨?_, ?_, ?_, ?_⟩
  · intro hb
    have hs : stdoutOf e.microAgent = Except.error msg := by
      unfold stdoutOf; rw [hb]
    simp [runPipeline, testResults, testMicroAgent, hs, hc]
  · intro hb
    have hs : stdoutOf e.mcpServer = Except.error msg := by
      unfold stdoutOf; rw [hb]
    refine ⟨by simp [testMCPServer, hs], ?_⟩
    intro hm
    unfold execOk resultOk at hm
    cases h1 : stdoutOf e.microAgent <;> rw [h1] at hm
    · exact absurd hm (by simp)
    · cases h3 : stdoutOf e.knowledgeGraph <;>
        cases h4 : stdoutOf e.sessionMemory <;>
          simp [testResults, testMicroAgent, testMCPServer, testKnowledgeGraph,
            testSessionMemory, h1, hs, h3, h4, hc]
  · intro hm hb
    have hs : stdoutOf e.knowledgeGraph = Except.error msg := by
      unfold stdoutOf; rw [hb]
    unfold execOk resultOk at hm
    cases h1 : stdoutOf e.microAgent <;> rw [h1] at hm
    · exact absurd hm (by simp)
    · cases h2 : stdoutOf e.mcpServer <;>
        simp [runPipeline, testResults, testMicroAgent, testMCPServer,
          testKnowledgeGraph, h1, h2, hs, hc]
  · intro hm hk hb
    have hs : stdoutOf e.sessionMemory = Except.error msg := by
      unfold stdoutOf; rw [hb]
    unfold execOk resultOk at hm hk
    cases h1 : stdoutOf e.microAgent <;> rw [h1] at hm
    · exact absurd hm (by simp)
    · cases h3 : stdoutOf e.knowledgeGraph <;> rw [h3] at hk
      · exact absurd hk (by simp)
      · cases h2 : stdoutOf e.mcpServer <;>
          simp [runPipeline, testResults, testMicroAgent, testMCPServer,
            testKnowledgeGraph, testSessionMemory, h1, h2, h3, hs, hc]

/-- C6 witness: the amended statement applied to the concrete environment
envC6, whose micro agent build fails. -/
theorem build_failure_behavior_holds :
    testMicroAgent envC6 = Except.error "pip install failed" ∧
    runPipeline envC6 = Except.error ("micro agent test failed: " ++ "pip install failed") ∧
    testResults envC6 = [(Component.microAgent, false)] :=
  (build_failure_behavior envC6 "pip install failed" rfl).1 rfl

/-- Environment for the C9 counterexample: the MCP server container run
fails, everything else fine. -/
def envC9 : Env :=
  { envAllOk with
    mcpServer := { build := Except.ok (), exec := Except.error "mcp crashed" } }

/-- C9 counterexample: the process exits with code 0 although the MCP
server component container run failed, contradicting the claim that any
failure yields a non zero exit code. -/
theorem mainExit_zero_despite_mcp_failure :
    execOk envC9.mcpServer = false ∧ mainExit envC9 = 0 := by
  decide

/-- C9 amended: the process exits 0 exactly when the runtime connection,
the preliminary dagger echo exec and the micro agent, knowledge graph and
session memory execs all succeed; the MCP server exec outcome is ignored,
and every other outcome exits with the single code 1 (no per failure class
codes exist). -/
theorem mainExit_characterization (e : Env) :
    (mainExit e = 0 ↔
      (e.connectOk = true ∧ resultOk e.daggerEcho = true ∧
       execOk e.microAgent = true ∧ execOk e.knowledgeGraph = true ∧
       execOk e.sessionMemory = true)) ∧
    (mainExit e = 0 ∨ mainExit e = 1) := by
  unfold mainExit testDagger runPipeline
  unfold testMicroAgent testMCPServer testKnowledgeGraph testSessionMemory
  unfold execOk resultOk
  cases hc : e.connectOk <;>
    cases h0 : e.daggerEcho <;>
      cases h1 : stdoutOf e.microAgent <;>
        cases h2 : stdoutOf e.mcpServer <;>
          cases h3 : stdoutOf e.knowledgeGraph <;>
            cases h4 : stdoutOf e.sessionMemory <;>
              simp_all

/-- Replacing the world of the MCP server component inside an environment. -/
def setMcp (e : Env) (w : ComponentWorld) : Env :=
  { e with mcpServer := w }

/-- C10: testMCPServer returns nil on every execution outcome of its
container, and the outcome of runPipeline does not depend on the MCP server
component world at all, so the MCP server component can never be the one
that makes the pipeline fail at the test phase. -/
theorem testMCPServer_never_fails (e : Env) (w : ComponentWorld) :
    testMCPServer e = Except.ok () ∧
    runPipeline (setMcp e w) = runPipeline e := by
  constructor
  · unfold testMCPServer
    cases stdoutOf e.mcpServer <;> rfl
  · unfold runPipeline testMicroAgent testMCPServer testKnowledgeGraph testSessionMemory setMcp
    cases h2 : stdoutOf e.mcpServer <;> cases h2w : stdoutOf w <;> simp_all
